import Mathlib

/-
  Verification development for the power-energy-manager repository.

  Shallow embedding of the forecasting and data-cleaning code of
  `model_service.py`, `page_dashboard.py` and `app_utils.py`.

  Conventions of the embedding:
  * timestamps are integers counting hours (the hourly index of the frames;
    the epoch is aligned to midnight, so hour-of-day is `t % 24`);
  * float values are rationals; a pandas NaN / missing value is `none`
    in `Option ℚ`;
  * the persisted model artifacts (the LightGBM booster, the Keras LSTM and
    the three fitted scalers) are not part of the repository source, so they
    enter the embedding as opaque function parameters; the scaler
    transforms are absorbed into those opaque functions;
  * the sample standard deviation is irrational-valued in general, so the
    statistic itself is an opaque parameter `stdFn`; every claim about the
    rolling std features concerns only which values feed them, never the
    numeric result.
-/

/- The rational arithmetic of Batteries is `@[irreducible]`; evaluating the
embedding on concrete inputs needs it definitionally transparent. -/
set_option allowUnsafeReducibility true
attribute [semireducible] Rat.add Rat.mul Rat.inv Rat.sub Rat.div

-- ==========================================================================
-- Generic series utilities (pandas shift / rolling / ffill / bfill slices)
-- ==========================================================================

/-- Element of a list at a signed position; out-of-range (including negative,
as produced by `shift`) is `none`, matching the NaN padding of pandas. -/
def optAtZ {α : Type} (l : List α) (i : ℤ) : Option α :=
  if 0 ≤ i then l.get? i.toNat else none

/-- Value of a power column (whose entries may themselves be NaN) at a signed
position: out of range collapses to NaN. -/
def powAtZ (power : List (Option ℚ)) (i : ℤ) : Option ℚ :=
  (optAtZ power i).join

/-- The raw window that `series.shift(s).rolling(window=w)` sees at position
`t`: the original positions `t-s-w+1 .. t-s`, with NaN outside the series. -/
def winVals (s w : ℕ) (power : List (Option ℚ)) (t : ℕ) : List (Option ℚ) :=
  (List.range w).map fun j : ℕ => powAtZ power ((t : ℤ) - s - w + 1 + (j : ℤ))

/-- pandas `rolling(...).mean()` with `min_periods=1`: the mean of the
non-NaN values of the window, NaN when there are none. -/
def meanOpt (l : List (Option ℚ)) : Option ℚ :=
  let v := l.filterMap id
  if v.length = 0 then none else some (v.sum / v.length)

/-- pandas `rolling(...).std()` (ddof = 1) with `min_periods=1`: the sample
standard deviation of the non-NaN window values; NaN with fewer than two
observations.  The numeric statistic is the opaque `stdFn`. -/
def stdOpt (stdFn : List ℚ → ℚ) (l : List (Option ℚ)) : Option ℚ :=
  let v := l.filterMap id
  if 2 ≤ v.length then some (stdFn v) else none

/-- pandas `ffill` with an explicit carried value (the last valid value seen
so far, `none` initially). -/
def ffillFrom (c : Option ℚ) : List (Option ℚ) → List (Option ℚ)
  | [] => []
  | none :: t => c :: ffillFrom c t
  | some v :: t => some v :: ffillFrom (some v) t

/-- pandas `Series.ffill()`. -/
def ffill (l : List (Option ℚ)) : List (Option ℚ) :=
  ffillFrom none l

/-- pandas `Series.bfill()`: a forward fill run on the reversed series. -/
def bfill (l : List (Option ℚ)) : List (Option ℚ) :=
  (ffillFrom none l.reverse).reverse

-- ==========================================================================
-- process_raw_data_to_df  (model_service.py lines 128-173)
-- ==========================================================================

/-- One record of the raw payload, after the per-cell parsing pandas does:
`ts` is the parsed timestamp (`none` = NaT), `power` the `to_numeric` result
of the power/power_kW cell, `isMissingFlagged` whether the record's
`isMissingData` cell equals `1` or `"1"`. -/
structure RawRecord where
  ts : Option ℤ
  power : Option ℚ
  temperature : Option ℚ
  humidity : Option ℚ
  isMissingFlagged : Bool
deriving DecidableEq, Repr

/-- The frame-level shape of the raw payload.  In pandas a column exists when
any record of the list carries the key; the flags record which columns the
constructed DataFrame has. -/
structure RawFrame where
  records : List RawRecord
  /-- a usable time representation exists: `full_timestamp`, `date`+`time`,
  or `time` (lines 138-148); otherwise the function returns an empty frame -/
  hasTimeSource : Bool
  /-- a `power` or `power_kW` column exists (line 154 guard) -/
  hasPowerCol : Bool
  hasTemperature : Bool
  hasHumidity : Bool
  /-- an `isMissingData` column exists (line 161 guard) -/
  hasMissingFlag : Bool
deriving DecidableEq, Repr

/-- A row of the cleaned output frame `df[['power_kW','temperature','humidity']]`. -/
structure CleanRow where
  ts : Option ℤ
  power_kW : Option ℚ
  temperature : Option ℚ
  humidity : Option ℚ
deriving DecidableEq, Repr

/-- Insert a record into a list sorted by timestamp (`sort_index`). -/
def insertByTs (a : RawRecord) : List RawRecord → List RawRecord
  | [] => [a]
  | b :: t => if a.ts.getD 0 ≤ b.ts.getD 0 then a :: b :: t else b :: insertByTs a t

/-- `df.set_index('timestamp').sort_index()` (line 158). -/
def sortByTs (l : List RawRecord) : List RawRecord :=
  l.foldr insertByTs []

/-- The rows that survive `dropna(subset=['timestamp'])`, in index order. -/
def keptRows (f : RawFrame) : List RawRecord :=
  sortByTs (f.records.filter fun r => r.ts.isSome)

/-- The power column after the `isMissingData` masking (lines 161-163). -/
def maskedPowers (f : RawFrame) : List (Option ℚ) :=
  (keptRows f).map fun r =>
    if f.hasMissingFlag && r.isMissingFlagged then none else r.power

/-- The power column after `replace(0, nan)` / `replace(0.0, nan)`
(lines 165-166). -/
def zeroReplacedPowers (f : RawFrame) : List (Option ℚ) :=
  (maskedPowers f).map fun p => if p = some 0 then none else p

/-- The power column after `ffill().bfill()` (line 167). -/
def filledPowers (f : RawFrame) : List (Option ℚ) :=
  bfill (ffill (zeroReplacedPowers f))

/-- One output row: the cleaned power value together with the weather
columns, which are the stored ones when a temperature column exists and
the defaults `25.0` / `70.0` (set together, lines 169-171) otherwise. -/
def cleanRowOf (hasTemp : Bool) (r : RawRecord) (p : Option ℚ) : CleanRow :=
  { ts := r.ts
    power_kW := p
    temperature := if hasTemp then r.temperature else some 25
    humidity := if hasTemp then r.humidity else some 70 }

/-- Embedding of `process_raw_data_to_df` (lines 128-173).  The early
returns of the source yield an empty frame; the only escaping exception is
the KeyError of the final column selection when a `humidity` column neither
exists nor was defaulted (defaulting happens only when `temperature` is
absent, lines 169-171). -/
def process_raw_data_to_df (f : RawFrame) : Except String (List CleanRow) :=
  if f.records = [] then .ok []
  else if f.hasTimeSource = false then .ok []
  else if f.hasPowerCol = false then .ok []
  else
    let rows := keptRows f
    let powers := filledPowers f
    if f.hasTemperature && !f.hasHumidity then
      .error "KeyError: humidity"
    else
      .ok (List.zipWith (cleanRowOf f.hasTemperature) rows powers)

-- ==========================================================================
-- Feature engineering  (model_service.py lines 61-108)
-- ==========================================================================

/-- `peak_hours` of `add_lgbm_features` (line 76). -/
def peak_hours : List ℤ := [10, 11, 12, 13, 14, 15, 17, 18, 19, 20]

/-- Hour of day of an hourly timestamp (the epoch is midnight-aligned). -/
def hourOf (t : ℤ) : ℤ := t % 24

/-- The row the LightGBM frame `add_lgbm_features` produces at position `i`.
The purely calendar-derived columns (`hour`, `day_of_week`, `month`, the
six sin/cos encodings and the holiday/weekend flags) are functions of the
`time` field alone and are subsumed by it; the remaining engineered columns
are embedded one for one from lines 78-87. -/
structure LgbmFeatureRow where
  time : ℤ
  temperature : ℚ
  humidity : ℚ
  lag_24h : Option ℚ
  lag_168h : Option ℚ
  lag_720h : Option ℚ
  temp_lag_1 : Option ℚ
  temp_lag_2 : Option ℚ
  temp_lag_3 : Option ℚ
  ma_7d : Option ℚ
  std_7d : Option ℚ
  ma_14d : Option ℚ
  std_14d : Option ℚ
  ma_30d : Option ℚ
  std_30d : Option ℚ
  temp_x_peak : ℚ
  temp_squared : ℚ
deriving DecidableEq

/-- Embedding of `add_lgbm_features` (lines 61-88) at one frame position:
lags are `shift(k)` lookups, the `ma_*d`/`std_*d` columns are
`shift(1).rolling(window_days*24, min_periods=1)` statistics. -/
def add_lgbm_features (stdFn : List ℚ → ℚ) (power : List (Option ℚ))
    (temps hums : List ℚ) (times : List ℤ) (i : ℕ) : LgbmFeatureRow :=
  let t := times.getD i 0
  let temp := temps.getD i 0
  { time := t
    temperature := temp
    humidity := hums.getD i 0
    lag_24h := powAtZ power ((i : ℤ) - 24)
    lag_168h := powAtZ power ((i : ℤ) - 168)
    lag_720h := powAtZ power ((i : ℤ) - 720)
    temp_lag_1 := optAtZ temps ((i : ℤ) - 1)
    temp_lag_2 := optAtZ temps ((i : ℤ) - 2)
    temp_lag_3 := optAtZ temps ((i : ℤ) - 3)
    ma_7d := meanOpt (winVals 1 168 power i)
    std_7d := stdOpt stdFn (winVals 1 168 power i)
    ma_14d := meanOpt (winVals 1 336 power i)
    std_14d := stdOpt stdFn (winVals 1 336 power i)
    ma_30d := meanOpt (winVals 1 720 power i)
    std_30d := stdOpt stdFn (winVals 1 720 power i)
    temp_x_peak := temp * (if hourOf t ∈ peak_hours then 1 else 0)
    temp_squared := temp * temp }

/-- The row the LSTM frame `add_lstm_features` produces at position `i`;
again the purely calendar-derived columns are subsumed by `time`. -/
structure LstmFeatureRow where
  time : ℤ
  power : Option ℚ
  temperature : ℚ
  humidity : ℚ
  lag_24h : Option ℚ
  lag_168h : Option ℚ
  rolling_mean_24h_safe : Option ℚ
  rolling_std_24h_safe : Option ℚ
  rolling_mean_168h : Option ℚ
  rolling_std_168h : Option ℚ
  temp_squared : ℚ
deriving DecidableEq

/-- Embedding of `add_lstm_features` (lines 90-108) at one frame position.
All four rolling columns are built on `power.shift(24)`, so their trailing
windows end at position `i - 24`. -/
def add_lstm_features (stdFn : List ℚ → ℚ) (power : List (Option ℚ))
    (temps hums : List ℚ) (times : List ℤ) (i : ℕ) : LstmFeatureRow :=
  let temp := temps.getD i 0
  { time := times.getD i 0
    power := powAtZ power i
    temperature := temp
    humidity := hums.getD i 0
    lag_24h := powAtZ power ((i : ℤ) - 24)
    lag_168h := powAtZ power ((i : ℤ) - 168)
    rolling_mean_24h_safe := meanOpt (winVals 24 24 power i)
    rolling_std_24h_safe := stdOpt stdFn (winVals 24 24 power i)
    rolling_mean_168h := meanOpt (winVals 24 168 power i)
    rolling_std_168h := stdOpt stdFn (winVals 24 168 power i)
    temp_squared := temp * temp }

/-- The columns present in the LightGBM feature frame: the four columns of
the combined history frame plus every column `add_lgbm_features` creates.
`X_lgbm = target_feat_lgbm[lgbm_feature_names]` (line 412) raises a KeyError
exactly when the model manifest names a column outside this list. -/
def lgbm_produced_columns : List String :=
  ["power_kW", "temperature", "humidity", "power",
   "hour", "day_of_week", "month", "is_holiday_or_weekend", "is_weekend",
   "hour_sin", "hour_cos", "week_sin", "week_cos", "month_sin", "month_cos",
   "is_peak", "lag_24h", "lag_168h", "lag_720h",
   "temp_lag_1", "temp_lag_2", "temp_lag_3",
   "ma_7d", "std_7d", "ma_14d", "std_14d", "ma_30d", "std_30d",
   "temp_x_peak", "temp_squared"]

-- ==========================================================================
-- Main prediction flow  (model_service.py lines 347-447)
-- ==========================================================================

/-- One hourly row of the combined history frame (`combined_df` after
line 383: `power` duplicates `power_kW`). -/
structure HistoryRow where
  time : ℤ
  power : Option ℚ
  temperature : ℚ
  humidity : ℚ
deriving DecidableEq, Repr

/-- One row of the returned `result_df` (lines 430-435): index `時間`,
columns `預測值` (final), `LGBM`, `LSTM`. -/
structure ForecastRow where
  time : ℤ
  final : ℚ
  lgbm : ℚ
  lstm : ℚ
deriving DecidableEq, Repr

/-- The loaded LightGBM artifact: its column manifest (`feature_name()`)
and its opaque per-row prediction function. -/
structure LgbmModel where
  feature_name : List String
  predict : LgbmFeatureRow → ℚ

/-- The loaded LSTM artifact together with the three fitted scalers:
an opaque function of the 168-row sequence window and the direct-feature
row, producing the 24 denormalized step predictions. -/
structure LstmModel where
  predict : List LstmFeatureRow → LstmFeatureRow → ℕ → ℚ

/-- `ensemble_weights.pkl`: `w_lgbm` and `w_lstm`. -/
structure EnsembleWeights where
  w_lgbm : ℚ
  w_lstm : ℚ

/-- Position of `last_valid_index` on the power column: the greatest
position holding a non-NaN value (`none` when every value is NaN). -/
def lastValidIdx (l : List HistoryRow) : Option ℕ :=
  (l.reverse.findIdx? fun r => r.power.isSome).map fun j => l.length - 1 - j

/-- Lines 388-394: keep the trailing 2000-row buffer, then, when the final
row's power is NaN or zero, truncate at `last_valid_index` (which looks for
non-NaN only, so a trailing zero row is its own last valid index and
nothing is removed). -/
def trimReady (combined : List HistoryRow) : List HistoryRow :=
  let dfReady := combined.drop (combined.length - 2000)
  match dfReady.getLast? with
  | none => dfReady
  | some last =>
    if last.power = none ∨ last.power = some 0 then
      match lastValidIdx dfReady with
      | some i => dfReady.take (i + 1)
      | none => dfReady
    else dfReady

/-- The power column of the full context frame (line 403): history powers
followed by the 24 future rows, whose power is NaN. -/
def fullPowerOf (ready : List HistoryRow) : List (Option ℚ) :=
  ready.map (fun r => r.power) ++ List.replicate 24 none

/-- The temperature column of the full context: the future rows carry the
last observed temperature (line 400). -/
def fullTempsOf (ready : List HistoryRow) (lastTemp : ℚ) : List ℚ :=
  ready.map (fun r => r.temperature) ++ List.replicate 24 lastTemp

/-- The humidity column of the full context: the future rows carry the last
observed humidity (line 401). -/
def fullHumsOf (ready : List HistoryRow) (lastHum : ℚ) : List ℚ :=
  ready.map (fun r => r.humidity) ++ List.replicate 24 lastHum

/-- The index of the full context: history timestamps followed by the 24
future hourly timestamps `last_time + i + 1` (line 397). -/
def fullTimesOf (ready : List HistoryRow) (lastTime : ℤ) : List ℤ :=
  ready.map (fun r => r.time) ++ (List.range 24).map fun i => lastTime + i + 1

/-- `df_lstm[seq_cols].iloc[current_idx-LOOKBACK_HOURS+1 : current_idx+1]`
with `current_idx = -25` on the `n+24`-row context (lines 415-419): the rows
at positions `n-168 .. n-1` (fewer when the history is shorter than 168). -/
def seqWindow (stdFn : List ℚ → ℚ) (power : List (Option ℚ))
    (temps hums : List ℚ) (times : List ℤ) (n : ℕ) : List LstmFeatureRow :=
  ((List.range n).drop (n - 168)).map fun p =>
    add_lstm_features stdFn power temps hums times p

/-- The exception sites of the prediction flow that the blanket
`except` of lines 445-447 can catch:
`emptyHistory` = `df_ready.index[-1]` on an empty frame (line 396),
`missingFeature` = the KeyError of the manifest column selection (line 412),
`badWindow` = the reshape/input-shape failure when the sequence window has
fewer than 168 rows (lines 422-425). -/
inductive FitError where
  | emptyHistory
  | missingFeature
  | badWindow
deriving DecidableEq, Repr

/-- The LightGBM prediction of future step `k` (`pred_lgbm[k]`, line 413):
the booster applied to the `iloc[-24:]` feature row at context position
`n + k`, where `n` is the trimmed history length. -/
def stepLgbm (stdFn : List ℚ → ℚ) (lgbm : LgbmModel) (ready : List HistoryRow)
    (lastRow : HistoryRow) (k : ℕ) : ℚ :=
  lgbm.predict (add_lgbm_features stdFn (fullPowerOf ready)
    (fullTempsOf ready lastRow.temperature) (fullHumsOf ready lastRow.humidity)
    (fullTimesOf ready lastRow.time) (ready.length + k))

/-- The LSTM prediction of future step `k` (`pred_lstm[k]`, lines 419-426):
the network applied to the 168-row sequence window ending at the last
observed row and the first future row's direct features. -/
def stepLstm (stdFn : List ℚ → ℚ) (lstm : LstmModel) (ready : List HistoryRow)
    (lastRow : HistoryRow) (k : ℕ) : ℚ :=
  lstm.predict
    (seqWindow stdFn (fullPowerOf ready) (fullTempsOf ready lastRow.temperature)
      (fullHumsOf ready lastRow.humidity) (fullTimesOf ready lastRow.time)
      ready.length)
    (add_lstm_features stdFn (fullPowerOf ready)
      (fullTempsOf ready lastRow.temperature) (fullHumsOf ready lastRow.humidity)
      (fullTimesOf ready lastRow.time) ready.length)
    k

/-- One row of `result_df` (lines 428-435): future timestamp
`last_time + k + 1` and the ensemble combination
`pred_final = pred_lgbm * w_lgbm + pred_lstm * w_lstm` of line 428. -/
def stepRow (stdFn : List ℚ → ℚ) (lgbm : LgbmModel) (lstm : LstmModel)
    (w : EnsembleWeights) (ready : List HistoryRow) (lastRow : HistoryRow)
    (k : ℕ) : ForecastRow :=
  { time := lastRow.time + k + 1
    final := w.w_lgbm * stepLgbm stdFn lgbm ready lastRow k +
      w.w_lstm * stepLstm stdFn lstm ready lastRow k
    lgbm := stepLgbm stdFn lgbm ready lastRow k
    lstm := stepLstm stdFn lstm ready lastRow k }

/-- The prediction flow on a nonempty trimmed history (lines 397-435): the
24 future steps are produced in a single batch.  The manifest column
selection (line 412) raises first when a manifest column is missing; the
sequence-window reshape (line 422) raises when the window has fewer than
168 rows. -/
def predictWith (stdFn : List ℚ → ℚ) (lgbm : LgbmModel) (lstm : LstmModel)
    (w : EnsembleWeights) (ready : List HistoryRow) (lastRow : HistoryRow) :
    Except FitError (List ForecastRow) :=
  if _hcols : ∀ c ∈ lgbm.feature_name, c ∈ lgbm_produced_columns then
    if _hseq : (seqWindow stdFn (fullPowerOf ready)
        (fullTempsOf ready lastRow.temperature)
        (fullHumsOf ready lastRow.humidity)
        (fullTimesOf ready lastRow.time) ready.length).length = 168 then
      .ok ((List.range 24).map (stepRow stdFn lgbm lstm w ready lastRow))
    else .error .badWindow
  else .error .missingFeature

/-- The prediction core of `load_resources_and_predict` (lines 388-435),
with the loaded artifacts as parameters and each uncaught exception site
made explicit: an empty trimmed history fails at `df_ready.index[-1]`
(line 396), otherwise the flow of `predictWith` runs on the trimmed
history and its last row. -/
def predictCore (stdFn : List ℚ → ℚ) (lgbm : LgbmModel) (lstm : LstmModel)
    (w : EnsembleWeights) (combined : List HistoryRow) :
    Except FitError (List ForecastRow) :=
  match (trimReady combined).getLast? with
  | none => .error .emptyHistory
  | some lastRow => predictWith stdFn lgbm lstm w (trimReady combined) lastRow

/-- Embedding of `load_resources_and_predict` (lines 347-447): the blanket
`except Exception` turns every error into the `(None, None)` return, so the
caller observes an `Option`. -/
def load_resources_and_predict (stdFn : List ℚ → ℚ) (lgbm : LgbmModel)
    (lstm : LstmModel) (w : EnsembleWeights) (combined : List HistoryRow) :
    Option (List ForecastRow) :=
  (predictCore stdFn lgbm lstm w combined).toOption

/-- Number of rows of the trimmed working history holding a valid
(non-missing) load value. -/
def validRowCount (combined : List HistoryRow) : ℕ :=
  ((trimReady combined).filter fun r => r.power.isSome).length

-- ==========================================================================
-- get_billing_status  (page_dashboard.py lines 12-39)
-- ==========================================================================

/-- The dictionary `get_billing_status` returns. -/
structure BillingStatus where
  period : String
  current_bill : ℤ
  predicted_bill : ℤ
  budget : ℤ
deriving DecidableEq, Repr

/-- Python `int()`: truncation toward zero. -/
def pyInt (q : ℚ) : ℤ := q.num.tdiv q.den

/-- Embedding of `get_billing_status` (page_dashboard.py lines 12-39).
The billing period is the hardcoded pair of constants of lines 13-14;
the function receives no reference date at all. -/
def get_billing_status (current_kwh : ℚ) (predicted_kwh_add : ℚ) : BillingStatus :=
  let current_bill : ℚ :=
    if current_kwh ≤ 500 then current_kwh * (7/2)
    else 500 * (7/2) + (current_kwh - 500) * 5
  let predicted_total_bill : ℚ :=
    if predicted_kwh_add > 0 then current_bill + predicted_kwh_add * 30 * (7/2)
    else current_bill * (9/5)
  { period := "2026-01-01 ~ 2026-03-01"
    current_bill := pyInt current_bill
    predicted_bill := pyInt predicted_total_bill
    budget := 3000 }

-- ==========================================================================
-- The exogenous simulator of the specification (absent from the source)
-- ==========================================================================

/-- Calendar slot equality on the hourly clock: same hour-of-year.  The
spec keys its climatology by `(month, day, hour)`; on the integer hour
index this is the position within a year of 8760 hours. -/
def sameCalendarSlot (a b : ℤ) : Bool := a % 8760 = b % 8760

/-- Mean of a list of rationals (`none` when empty). -/
def meanOf (l : List ℚ) : Option ℚ :=
  if l.length = 0 then none else some (l.sum / l.length)

/-- Modelled from the spec: the climatology-based exogenous simulator the
specification describes (spec 4.2), which the source does not contain.  It
returns the historical mean temperature at the target timestamp's calendar
slot across all observed years, falling back to the series-wide mean when
the slot has no observations.  Used only to compare the specified behaviour
with the persistence rule the code actually implements. -/
def spec_exogenous_temperature (hist : List HistoryRow) (t : ℤ) : Option ℚ :=
  let slotTemps := hist.filterMap fun r =>
    if sameCalendarSlot r.time t then some r.temperature else none
  if slotTemps.length ≠ 0 then meanOf slotTemps
  else meanOf (hist.map fun r => r.temperature)

-- ==========================================================================
-- Concrete instances used to evaluate the embedding
-- ==========================================================================

/-- A LightGBM artifact with a given manifest whose booster returns the
constant `v`. -/
def constLgbm (manifest : List String) (v : ℚ) : LgbmModel :=
  { feature_name := manifest, predict := fun _ => v }

/-- An LSTM artifact returning the constant `v` at every step. -/
def constLstm (v : ℚ) : LstmModel :=
  { predict := fun _ _ _ => v }

/-- Equal ensemble weights. -/
def halfWeights : EnsembleWeights := { w_lgbm := 1/2, w_lstm := 1/2 }

/-- A stand-in for the opaque standard-deviation statistic. -/
def zeroStd : List ℚ → ℚ := fun _ => 0

/-- A clean hourly history of `n` rows: times `1..n`, constant load 5,
temperature 20, humidity 60. -/
def mkCleanHist (n : ℕ) : List HistoryRow :=
  (List.range n).map fun j =>
    { time := (j : ℤ) + 1, power := some 5, temperature := 20, humidity := 60 }

/-- The result frame a run with constant model outputs `v` and equal
weights produces from a history ending at `lastTime`. -/
def constRunRows (lastTime : ℤ) (v : ℚ) : List ForecastRow :=
  (List.range 24).map fun k =>
    { time := lastTime + k + 1, final := v, lgbm := v, lstm := v }

/-- History whose final row carries temperature 30 while all 168 earlier
rows carry 20 (for comparing persistence with climatology). -/
def c4Hist : List HistoryRow :=
  (List.range 169).map fun j =>
    { time := (j : ℤ) + 1, power := some 5,
      temperature := if j = 168 then 30 else 20, humidity := 60 }

/-- A 168-row history with exactly one valid load value (the final row). -/
def c5Hist : List HistoryRow :=
  (List.range 168).map fun j =>
    { time := (j : ℤ) + 1, power := if j = 167 then some 5 else none,
      temperature := 20, humidity := 60 }

/-- A 169-row history whose final row holds the (invalid) load reading 0,
with valid readings before it. -/
def c8Hist : List HistoryRow :=
  (List.range 169).map fun j =>
    { time := (j : ℤ) + 1, power := if j = 168 then some 0 else some 5,
      temperature := 20, humidity := 60 }

/-- A constant power series of sixty values 2. -/
def c7Base : List (Option ℚ) := List.replicate 60 (some 2)

/-- The same series with the value at position 47 replaced by 100. -/
def c7Mutated : List (Option ℚ) := c7Base.set 47 (some 100)

/-- A constant temperature/humidity column for the rolling-feature tests. -/
def c7Zeros : List ℚ := List.replicate 60 0

/-- A constant index column for the rolling-feature tests. -/
def c7Times : List ℤ := List.replicate 60 0

/-- A raw frame with one zero reading followed by a valid reading. -/
def c9Frame : RawFrame :=
  { records :=
      [ { ts := some 1, power := some 0, temperature := some 20,
          humidity := some 60, isMissingFlagged := false },
        { ts := some 2, power := some 3, temperature := some 20,
          humidity := some 60, isMissingFlagged := false } ]
    hasTimeSource := true, hasPowerCol := true,
    hasTemperature := true, hasHumidity := true, hasMissingFlag := false }

/-- The cleaned frame `process_raw_data_to_df` produces from `c9Frame`. -/
def c9Rows : List CleanRow :=
  [ { ts := some 1, power_kW := some 3, temperature := some 20, humidity := some 60 },
    { ts := some 2, power_kW := some 3, temperature := some 20, humidity := some 60 } ]

/-- A raw frame without any weather column. -/
def c10NoWeather : RawFrame :=
  { records :=
      [ { ts := some 1, power := some 4, temperature := none,
          humidity := none, isMissingFlagged := false } ]
    hasTimeSource := true, hasPowerCol := true,
    hasTemperature := false, hasHumidity := false, hasMissingFlag := false }

/-- A raw frame carrying temperature but no humidity column. -/
def c10TempOnly : RawFrame :=
  { records :=
      [ { ts := some 1, power := some 4, temperature := some 22,
          humidity := none, isMissingFlagged := false } ]
    hasTimeSource := true, hasPowerCol := true,
    hasTemperature := true, hasHumidity := false, hasMissingFlag := false }

-- ==========================================================================
-- Library lemmas about the series utilities
-- ==========================================================================

theorem mem_insertByTs {x a : RawRecord} {l : List RawRecord}
    (h : x ∈ insertByTs a l) : x = a ∨ x ∈ l := by
  induction l with
  | nil => simpa [insertByTs] using h
  | cons b t ih =>
    by_cases hc : a.ts.getD 0 ≤ b.ts.getD 0
    · simpa [insertByTs, hc, or_assoc] using h
    · simp only [insertByTs, hc, if_false, List.mem_cons] at h
      rcases h with h | h
      · exact Or.inr (by simp [h])
      · rcases ih h with h | h
        · exact Or.inl h
        · exact Or.inr (by simp [h])

theorem mem_sortByTs {x : RawRecord} {l : List RawRecord}
    (h : x ∈ sortByTs l) : x ∈ l := by
  induction l with
  | nil => simp [sortByTs] at h
  | cons b t ih =>
    have h' : x ∈ insertByTs b (sortByTs t) := h
    rcases mem_insertByTs h' with h'' | h''
    · simp [h'']
    · exact List.mem_cons_of_mem _ (ih h'')

theorem of_mem_zipWith {α β γ : Type} {g : α → β → γ} {x : γ} :
    ∀ {as : List α} {bs : List β}, x ∈ List.zipWith g as bs →
      ∃ a ∈ as, ∃ b ∈ bs, x = g a b := by
  intro as
  induction as with
  | nil => intro bs h; simp at h
  | cons a t ih =>
    intro bs h
    cases bs with
    | nil => simp at h
    | cons b bt =>
      simp only [List.zipWith_cons_cons, List.mem_cons] at h
      rcases h with h | h
      · exact ⟨a, by simp, b, by simp, h⟩
      · rcases ih h with ⟨a', ha', b', hb', hx⟩
        exact ⟨a', by simp [ha'], b', by simp [hb'], hx⟩

theorem length_ffillFrom (c : Option ℚ) (l : List (Option ℚ)) :
    (ffillFrom c l).length = l.length := by
  induction l generalizing c with
  | nil => rfl
  | cons a t ih => cases a <;> simp [ffillFrom, ih]

theorem ffillFrom_pres {P : Option ℚ → Prop} :
    ∀ {c : Option ℚ} {l : List (Option ℚ)}, P c → (∀ y ∈ l, P y) →
      ∀ x ∈ ffillFrom c l, P x := by
  intro c l
  induction l generalizing c with
  | nil => intro _ _ x hx; simp [ffillFrom] at hx
  | cons a t ih =>
    intro hc hl x hx
    cases a with
    | none =>
      simp only [ffillFrom, List.mem_cons] at hx
      rcases hx with rfl | hx
      · exact hc
      · exact ih hc (fun y hy => hl y (by simp [hy])) x hx
    | some v =>
      simp only [ffillFrom, List.mem_cons] at hx
      rcases hx with rfl | hx
      · exact hl (some v) (by simp)
      · exact ih (hl (some v) (by simp)) (fun y hy => hl y (by simp [hy])) x hx

theorem getLast?_cons_ne_nil {α : Type} (a : α) {l : List α} (h : l ≠ []) :
    (a :: l).getLast? = l.getLast? := by
  cases l with
  | nil => exact absurd rfl h
  | cons b t => exact List.getLast?_cons_cons

theorem ffillFrom_isSome_of_carry :
    ∀ {l : List (Option ℚ)} {c : Option ℚ}, c.isSome = true →
      ∀ x ∈ ffillFrom c l, x.isSome = true := by
  intro l
  induction l with
  | nil => intro c _ x hx; simp [ffillFrom] at hx
  | cons a t ih =>
    intro c hc x hx
    cases a with
    | none =>
      rcases List.mem_cons.mp hx with rfl | hx'
      · exact hc
      · exact ih hc x hx'
    | some v =>
      rcases List.mem_cons.mp hx with rfl | hx'
      · exact Option.isSome_some
      · exact ih Option.isSome_some x hx'

theorem ffillFrom_getLast_isSome :
    ∀ {l : List (Option ℚ)} {c : Option ℚ}, l.any Option.isSome = true →
      ∃ u : ℚ, (ffillFrom c l).getLast? = some (some u) := by
  intro l
  induction l with
  | nil => intro c h; simp at h
  | cons a t ih =>
    intro c h
    cases a with
    | none =>
      have ht : t.any Option.isSome = true := by simpa using h
      rcases ih (c := c) ht with ⟨u, hu⟩
      have hne : ffillFrom c t ≠ [] := by
        intro hnil
        rw [hnil] at hu
        simp at hu
      refine ⟨u, ?_⟩
      rw [show ffillFrom c (none :: t) = c :: ffillFrom c t from rfl]
      rwa [getLast?_cons_ne_nil _ hne]
    | some v =>
      rw [show ffillFrom c (some v :: t) = some v :: ffillFrom (some v) t from rfl]
      by_cases ht : t.any Option.isSome = true
      · rcases ih (c := some v) ht with ⟨u, hu⟩
        have hne : ffillFrom (some v) t ≠ [] := by
          intro hnil
          rw [hnil] at hu
          simp at hu
        exact ⟨u, by rwa [getLast?_cons_ne_nil _ hne]⟩
      · cases htn : ffillFrom (some v) t with
        | nil => exact ⟨v, by simp [htn]⟩
        | cons b bt =>
          have hne : ffillFrom (some v) t ≠ [] := by simp [htn]
          have hb : ∀ x ∈ ffillFrom (some v) t, x.isSome = true :=
            ffillFrom_isSome_of_carry Option.isSome_some
          have hlast := List.getLast?_eq_getLast _ hne
          have hmem := List.getLast_mem hne
          rcases Option.isSome_iff_exists.mp (hb _ hmem) with ⟨u, hu⟩
          exact ⟨u, by rw [List.getLast?_cons_cons, ← htn, hlast, hu]⟩

theorem bfill_ffill_isSome {l : List (Option ℚ)}
    (h : l.any Option.isSome = true) :
    ∀ x ∈ bfill (ffill l), x.isSome := by
  rcases ffillFrom_getLast_isSome (l := l) (c := none) h with ⟨u, hu⟩
  have hhead : (ffill l).reverse.head? = some (some u) := by
    rw [List.head?_reverse]; exact hu
  intro x hx
  unfold bfill at hx
  rw [List.mem_reverse] at hx
  cases hrev : (ffill l).reverse with
  | nil => rw [hrev] at hhead; simp at hhead
  | cons b bt =>
    rw [hrev] at hhead
    simp only [List.head?_cons, Option.some.injEq] at hhead
    rw [hrev] at hx
    subst hhead
    rw [show ffillFrom none (some u :: bt) = some u :: ffillFrom (some u) bt from rfl] at hx
    rcases List.mem_cons.mp hx with rfl | hx
    · rfl
    · exact ffillFrom_isSome_of_carry Option.isSome_some x hx

theorem zeroReplacedPowers_ne_zero (f : RawFrame) :
    ∀ y ∈ zeroReplacedPowers f, y ≠ some 0 := by
  intro y hy
  rcases List.mem_map.mp hy with ⟨p, _, hp⟩
  by_cases h0 : p = some 0
  · simp [h0] at hp; simp [← hp]
  · rw [← hp]; simp [h0]

theorem filledPowers_ne_zero (f : RawFrame) :
    ∀ x ∈ filledPowers f, x ≠ some 0 := by
  have hstep : ∀ x ∈ ffill (zeroReplacedPowers f), x ≠ some 0 := by
    intro x hx
    exact ffillFrom_pres (P := fun o => o ≠ some 0) (by simp)
      (zeroReplacedPowers_ne_zero f) x hx
  intro x hx
  unfold filledPowers bfill at hx
  rw [List.mem_reverse] at hx
  refine ffillFrom_pres (P := fun o => o ≠ some 0) (by simp) ?_ x hx
  intro y hy
  exact hstep y (List.mem_reverse.mp hy)

theorem filledPowers_isSome_of_any (f : RawFrame)
    (h : (zeroReplacedPowers f).any Option.isSome = true) :
    ∀ x ∈ filledPowers f, x.isSome = true := by
  intro x hx
  exact bfill_ffill_isSome h x hx

-- ==========================================================================
-- Claim C9
-- ==========================================================================

/-- Claim C9: for every raw record list, the cleaned series returned by
`process_raw_data_to_df` contains no `power_kW` entry equal to 0; every
zero and every flagged reading is converted to missing and then
forward/back-filled, so a remaining entry is either a non-zero number or
missing, the latter only when no valid reading exists anywhere in the
series (that is, when the whole zero-replaced column is missing). -/
theorem claim_C9 (f : RawFrame) (rows : List CleanRow) (r : CleanRow)
    (hok : process_raw_data_to_df f = .ok rows) (hr : r ∈ rows) :
    r.power_kW ≠ some 0 ∧
      (r.power_kW = none → ∀ y ∈ zeroReplacedPowers f, y = none) := by
  unfold process_raw_data_to_df at hok
  split_ifs at hok with h1 h2 h3 h4
  · cases hok; simp at hr
  · cases hok; simp at hr
  · cases hok; simp at hr
  case neg =>
    rw [Except.ok.injEq] at hok
    subst hok
    rcases of_mem_zipWith hr with ⟨a, _, b, hb, hrab⟩
    have hpw : r.power_kW = b := by rw [hrab]; rfl
    refine ⟨by rw [hpw]; exact filledPowers_ne_zero f b hb, ?_⟩
    intro hnone y hy
    by_contra hyne
    have hy' : y.isSome = true := by
      cases y with
      | none => exact absurd rfl hyne
      | some v => rfl
    have hany : (zeroReplacedPowers f).any Option.isSome = true :=
      List.any_eq_true.mpr ⟨y, hy, hy'⟩
    have hb' := filledPowers_isSome_of_any f hany b hb
    rw [hpw] at hnone
    rw [hnone] at hb'
    simp at hb'

/-- Witness for claim C9 at a concrete frame holding a zero reading
followed by the value 3: the zero is forward/back-filled to 3 and no zero
survives. -/
theorem claim_C9_witness :
    process_raw_data_to_df c9Frame = .ok c9Rows ∧
      (⟨some 1, some 3, some 20, some 60⟩ : CleanRow) ∈ c9Rows ∧
      ((⟨some 1, some 3, some 20, some 60⟩ : CleanRow).power_kW ≠ some 0 ∧
        ((⟨some 1, some 3, some 20, some 60⟩ : CleanRow).power_kW = none →
          ∀ y ∈ zeroReplacedPowers c9Frame, y = none)) :=
  ⟨rfl, by decide,
    claim_C9 c9Frame c9Rows ⟨some 1, some 3, some 20, some 60⟩ rfl (by decide)⟩

-- ==========================================================================
-- Claim C10
-- ==========================================================================

/-- Claim C10: `process_raw_data_to_df` defaults the weather columns
(temperature 25.0 and humidity 70.0, together) only when the temperature
column is entirely absent; when the input carries a temperature column but
no humidity column, the call fails at the final column selection with the
humidity KeyError instead of defaulting humidity. -/
theorem claim_C10 :
    (∀ f rows, f.hasTemperature = false → process_raw_data_to_df f = .ok rows →
      ∀ r ∈ rows, r.temperature = some 25 ∧ r.humidity = some 70) ∧
    (∀ f : RawFrame, f.hasTemperature = true → f.hasHumidity = false →
      f.records ≠ [] → f.hasTimeSource = true → f.hasPowerCol = true →
      process_raw_data_to_df f = .error "KeyError: humidity") := by
  constructor
  · intro f rows hT hok r hr
    unfold process_raw_data_to_df at hok
    split_ifs at hok with h1 h2 h3 h4
    · cases hok; simp at hr
    · cases hok; simp at hr
    · cases hok; simp at hr
    case neg =>
      rw [Except.ok.injEq] at hok
      subst hok
      rcases of_mem_zipWith hr with ⟨a, _, b, _, hrab⟩
      rw [hrab, hT]
      simp [cleanRowOf]
  · intro f hT hH hrec htime hpow
    unfold process_raw_data_to_df
    split_ifs with h1 h2 h3 h4
    · exact absurd h1 hrec
    · rw [htime] at h2; simp at h2
    · rw [hpow] at h3; simp at h3
    · rfl
    · rw [hT, hH] at h4; simp at h4

/-- Witness for claim C10: a weatherless frame gets both defaults, and a
temperature-only frame is rejected with the humidity KeyError. -/
theorem claim_C10_witness :
    (c10NoWeather.hasTemperature = false ∧
      process_raw_data_to_df c10NoWeather =
        .ok [⟨some 1, some 4, some 25, some 70⟩] ∧
      ((⟨some 1, some 4, some 25, some 70⟩ : CleanRow).temperature = some 25 ∧
        (⟨some 1, some 4, some 25, some 70⟩ : CleanRow).humidity = some 70)) ∧
      process_raw_data_to_df c10TempOnly = .error "KeyError: humidity" :=
  ⟨⟨rfl, rfl,
    claim_C10.1 c10NoWeather [⟨some 1, some 4, some 25, some 70⟩] rfl rfl
      ⟨some 1, some 4, some 25, some 70⟩ (by decide)⟩,
    claim_C10.2 c10TempOnly rfl rfl (by decide) rfl rfl⟩

-- ==========================================================================
-- Lemmas about the prediction pipeline
-- ==========================================================================

theorem powAtZ_neg (l : List (Option ℚ)) (i : ℤ) (h : i < 0) :
    powAtZ l i = none := by
  unfold powAtZ optAtZ
  rw [if_neg (by omega)]
  rfl

theorem powAtZ_append_left (l1 l2 : List (Option ℚ)) (i : ℤ)
    (h : i < (l1.length : ℤ)) : powAtZ (l1 ++ l2) i = powAtZ l1 i := by
  unfold powAtZ optAtZ
  by_cases h0 : 0 ≤ i
  · rw [if_pos h0, if_pos h0, List.get?_eq_getElem?, List.get?_eq_getElem?,
      List.getElem?_append_left (by omega)]
  · rw [if_neg h0, if_neg h0]

theorem getD_append_replicate {α : Type} (l : List α) (m : ℕ) (v d : α)
    (k : ℕ) (hk : k < m) : (l ++ List.replicate m v).getD (l.length + k) d = v := by
  have h1 : (l ++ List.replicate m v).getD (l.length + k) d =
      ((l ++ List.replicate m v).get? (l.length + k)).getD d := by
    simp [List.getD, List.get?_eq_getElem?]
  rw [h1, List.get?_eq_getElem?, List.getElem?_append_right (by omega)]
  simp [List.getElem?_replicate, hk]

theorem winVals_congr (s w : ℕ) (hs : 1 ≤ s) (p1 p2 : List (Option ℚ)) (t : ℕ)
    (hagree : ∀ i : ℤ, i < (t : ℤ) → powAtZ p1 i = powAtZ p2 i) :
    winVals s w p1 t = winVals s w p2 t := by
  unfold winVals
  refine List.map_congr_left ?_
  intro j hj
  have hjw : (j : ℤ) < (w : ℤ) := by exact_mod_cast List.mem_range.mp hj
  exact hagree _ (by omega)

theorem seqWindow_length (stdFn : List ℚ → ℚ) (power : List (Option ℚ))
    (temps hums : List ℚ) (times : List ℤ) (n : ℕ) :
    (seqWindow stdFn power temps hums times n).length = n - (n - 168) := by
  simp [seqWindow]

theorem except_toOption_eq_some {ε α : Type} {e : Except ε α} {a : α}
    (h : e.toOption = some a) : e = .ok a := by
  cases e with
  | ok v => simp [Except.toOption] at h; rw [h]
  | error s => simp [Except.toOption] at h

/-- A successful run implies the trimmed working history is nonempty. -/
theorem predictCore_ok_getLast (stdFn : List ℚ → ℚ) (lgbm : LgbmModel)
    (lstm : LstmModel) (w : EnsembleWeights) (combined : List HistoryRow)
    (rows : List ForecastRow)
    (hok : predictCore stdFn lgbm lstm w combined = .ok rows) :
    ∃ lastRow, (trimReady combined).getLast? = some lastRow := by
  unfold predictCore at hok
  generalize hR : trimReady combined = R at hok ⊢
  cases hgl : R.getLast? with
  | none =>
    rw [hgl] at hok
    cases hok
  | some lr => exact ⟨lr, rfl⟩

/-- The rows a successful `predictWith` returns, as an explicit map over
the 24 future steps. -/
theorem predictWith_ok_struct (stdFn : List ℚ → ℚ) (lgbm : LgbmModel)
    (lstm : LstmModel) (w : EnsembleWeights) (ready : List HistoryRow)
    (lastRow : HistoryRow) (rows : List ForecastRow)
    (hok : predictWith stdFn lgbm lstm w ready lastRow = .ok rows) :
    rows = (List.range 24).map (stepRow stdFn lgbm lstm w ready lastRow) := by
  unfold predictWith at hok
  split_ifs at hok with h1 h2
  rw [Except.ok.injEq] at hok
  exact hok.symm

/-- The rows a successful run returns, as an explicit map over the 24
future steps of the trimmed history. -/
theorem predictCore_ok_struct (stdFn : List ℚ → ℚ) (lgbm : LgbmModel)
    (lstm : LstmModel) (w : EnsembleWeights) (combined : List HistoryRow)
    (rows : List ForecastRow) (lastRow : HistoryRow)
    (hlast : (trimReady combined).getLast? = some lastRow)
    (hok : predictCore stdFn lgbm lstm w combined = .ok rows) :
    rows = (List.range 24).map
      (stepRow stdFn lgbm lstm w (trimReady combined) lastRow) := by
  unfold predictCore at hok
  generalize hR : trimReady combined = R at hlast hok ⊢
  rw [hlast] at hok
  exact predictWith_ok_struct _ _ _ _ _ _ _ hok

-- ==========================================================================
-- Claim C1
-- ==========================================================================

/-- Claim C1 (amended): every returned forecast row's final value is the
ensemble combination `w_lgbm * LGBM + w_lstm * LSTM` of line 428, with no
clamping applied, so non-negativity is not enforced. -/
theorem claim_C1_amended (stdFn : List ℚ → ℚ) (lgbm : LgbmModel)
    (lstm : LstmModel) (w : EnsembleWeights) (combined : List HistoryRow)
    (rows : List ForecastRow)
    (hok : load_resources_and_predict stdFn lgbm lstm w combined = some rows) :
    ∀ r ∈ rows, r.final = w.w_lgbm * r.lgbm + w.w_lstm * r.lstm := by
  have hcore := except_toOption_eq_some hok
  obtain ⟨lastRow, hlast⟩ := predictCore_ok_getLast _ _ _ _ _ _ hcore
  have hstruct := predictCore_ok_struct _ _ _ _ _ _ _ hlast hcore
  subst hstruct
  intro r hr
  rcases List.mem_map.mp hr with ⟨k, _, hk⟩
  rw [← hk]
  rfl

set_option maxRecDepth 100000 in
/-- Witness for claim C1 (amended) on a concrete 169-hour history with
constant model outputs 7 and equal weights. -/
theorem claim_C1_witness :
    load_resources_and_predict zeroStd (constLgbm ["lag_24h"] 7) (constLstm 7)
        halfWeights (mkCleanHist 169) = some (constRunRows 169 7) ∧
      ({ time := 170, final := 7, lgbm := 7, lstm := 7 } : ForecastRow) ∈ constRunRows 169 7 ∧
      ({ time := 170, final := 7, lgbm := 7, lstm := 7 } : ForecastRow).final =
        halfWeights.w_lgbm * ({ time := 170, final := 7, lgbm := 7, lstm := 7 } : ForecastRow).lgbm +
        halfWeights.w_lstm * ({ time := 170, final := 7, lgbm := 7, lstm := 7 } : ForecastRow).lstm :=
  ⟨of_decide_eq_true rfl, of_decide_eq_true rfl,
    claim_C1_amended zeroStd (constLgbm ["lag_24h"] 7) (constLstm 7)
      halfWeights (mkCleanHist 169) (constRunRows 169 7) (of_decide_eq_true rfl)
      { time := 170, final := 7, lgbm := 7, lstm := 7 } (of_decide_eq_true rfl)⟩

set_option maxRecDepth 100000 in
/-- Counterexample to claim C1 as stated: with loaded predictors whose
outputs are negative, the returned final predictions are negative — the
combination of line 428 never clamps at zero. -/
theorem claim_C1_counterexample :
    ¬ (∀ rows : List ForecastRow,
        load_resources_and_predict zeroStd (constLgbm ["lag_24h"] (-10))
          (constLstm (-10)) halfWeights (mkCleanHist 169) = some rows →
        ∀ r ∈ rows, 0 ≤ r.final) := by
  intro hall
  have h1 : load_resources_and_predict zeroStd (constLgbm ["lag_24h"] (-10))
      (constLstm (-10)) halfWeights (mkCleanHist 169) =
      some (constRunRows 169 (-10)) := of_decide_eq_true rfl
  have h2 : ({ time := 170, final := -10, lgbm := -10, lstm := -10 } : ForecastRow) ∈
      constRunRows 169 (-10) := of_decide_eq_true rfl
  have h3 := hall _ h1 _ h2
  norm_num at h3

-- ==========================================================================
-- Claim C2
-- ==========================================================================

/-- Claim C2 (amended): the forecast is single-shot, not autoregressive:
every successful call returns exactly 24 steps, and the lag-24 input of the
feature row used for future step `k` is the observed power of the trimmed
working history at position `n + k - 24` — predictions are never appended
back into the working history. -/
theorem claim_C2_amended (stdFn : List ℚ → ℚ) (lgbm : LgbmModel)
    (lstm : LstmModel) (w : EnsembleWeights) (combined : List HistoryRow)
    (rows : List ForecastRow) (lastRow : HistoryRow)
    (hlast : (trimReady combined).getLast? = some lastRow)
    (hok : load_resources_and_predict stdFn lgbm lstm w combined = some rows) :
    rows.length = 24 ∧
    ∀ k : ℕ, k < 24 →
      (add_lgbm_features stdFn (fullPowerOf (trimReady combined))
        (fullTempsOf (trimReady combined) lastRow.temperature)
        (fullHumsOf (trimReady combined) lastRow.humidity)
        (fullTimesOf (trimReady combined) lastRow.time)
        ((trimReady combined).length + k)).lag_24h =
      powAtZ ((trimReady combined).map fun r => r.power)
        (((trimReady combined).length : ℤ) + (k : ℤ) - 24) := by
  have hcore := except_toOption_eq_some hok
  have hstruct := predictCore_ok_struct _ _ _ _ _ _ _ hlast hcore
  constructor
  · rw [hstruct]
    simp
  · intro k hk
    show powAtZ (fullPowerOf (trimReady combined))
        (((((trimReady combined).length + k : ℕ)) : ℤ) - 24) = _
    unfold fullPowerOf
    rw [powAtZ_append_left]
    · congr 1
    · rw [List.length_map]
      push_cast
      omega

set_option maxRecDepth 100000 in
/-- Witness for claim C2 (amended) on a concrete 169-hour history with
constant model outputs 999. -/
theorem claim_C2_witness :
    (trimReady (mkCleanHist 169)).getLast? =
        some { time := 169, power := some 5, temperature := 20, humidity := 60 } ∧
      load_resources_and_predict zeroStd (constLgbm ["lag_24h"] 999) (constLstm 999)
        halfWeights (mkCleanHist 169) = some (constRunRows 169 999) ∧
      ((constRunRows 169 999).length = 24 ∧
        ∀ k : ℕ, k < 24 →
          (add_lgbm_features zeroStd (fullPowerOf (trimReady (mkCleanHist 169)))
            (fullTempsOf (trimReady (mkCleanHist 169)) 20)
            (fullHumsOf (trimReady (mkCleanHist 169)) 60)
            (fullTimesOf (trimReady (mkCleanHist 169)) 169)
            ((trimReady (mkCleanHist 169)).length + k)).lag_24h =
          powAtZ ((trimReady (mkCleanHist 169)).map fun r => r.power)
            (((trimReady (mkCleanHist 169)).length : ℤ) + (k : ℤ) - 24)) :=
  ⟨of_decide_eq_true rfl, of_decide_eq_true rfl,
    claim_C2_amended zeroStd (constLgbm ["lag_24h"] 999) (constLstm 999)
      halfWeights (mkCleanHist 169) (constRunRows 169 999)
      { time := 169, power := some 5, temperature := 20, humidity := 60 }
      (of_decide_eq_true rfl) (of_decide_eq_true rfl)⟩

set_option maxRecDepth 100000 in
/-- Counterexample to claim C2 as stated: on a concrete 169-hour history
whose loads are all 5, models returning the distinctive constant 999
produce exactly 24 steps (never 25 or more) with every final prediction
999, yet no feature row of the batch carries 999 as its lag-24 input —
predictions do not feed forward into the features. -/
theorem claim_C2_counterexample :
    load_resources_and_predict zeroStd (constLgbm ["lag_24h"] 999) (constLstm 999)
        halfWeights (mkCleanHist 169) = some (constRunRows 169 999) ∧
      (constRunRows 169 999).length = 24 ∧
      (∀ r ∈ constRunRows 169 999, r.final = 999) ∧
      ∀ k ∈ List.range 24,
        (add_lgbm_features zeroStd (fullPowerOf (trimReady (mkCleanHist 169)))
          (fullTempsOf (trimReady (mkCleanHist 169)) 20)
          (fullHumsOf (trimReady (mkCleanHist 169)) 60)
          (fullTimesOf (trimReady (mkCleanHist 169)) 169)
          ((trimReady (mkCleanHist 169)).length + k)).lag_24h ≠ some 999 :=
  ⟨of_decide_eq_true rfl, of_decide_eq_true rfl, of_decide_eq_true rfl,
    of_decide_eq_true rfl⟩

-- ==========================================================================
-- Claim C3
-- ==========================================================================

/-- Claim C3 (amended): the billing period `get_billing_status` reports is
the hardcoded constant `2026-01-01 ~ 2026-03-01` — the function receives no
reference date and resolves no bimonthly cycle — and the forecast horizon
is always exactly 24 hours, never `cycle_end - now`. -/
theorem claim_C3_amended :
    (∀ current_kwh predicted_kwh_add : ℚ,
      (get_billing_status current_kwh predicted_kwh_add).period =
        "2026-01-01 ~ 2026-03-01") ∧
    (∀ (stdFn : List ℚ → ℚ) (lgbm : LgbmModel) (lstm : LstmModel)
      (w : EnsembleWeights) (combined : List HistoryRow) (rows : List ForecastRow),
      load_resources_and_predict stdFn lgbm lstm w combined = some rows →
      rows.length = 24) := by
  constructor
  · intro current_kwh predicted_kwh_add
    rfl
  · intro stdFn lgbm lstm w combined rows hok
    have hcore := except_toOption_eq_some hok
    obtain ⟨lastRow, hlast⟩ := predictCore_ok_getLast _ _ _ _ _ _ hcore
    have hstruct := predictCore_ok_struct _ _ _ _ _ _ _ hlast hcore
    rw [hstruct]
    simp

set_option maxRecDepth 100000 in
/-- Witness for claim C3 (amended): the period constant at a concrete
input, and a concrete 170-hour run returning exactly 24 rows. -/
theorem claim_C3_witness :
    (get_billing_status 100 0).period = "2026-01-01 ~ 2026-03-01" ∧
      load_resources_and_predict zeroStd (constLgbm ["lag_24h"] 7) (constLstm 7)
        halfWeights (mkCleanHist 170) = some (constRunRows 170 7) ∧
      (constRunRows 170 7).length = 24 :=
  ⟨claim_C3_amended.1 100 0, of_decide_eq_true rfl,
    claim_C3_amended.2 zeroStd (constLgbm ["lag_24h"] 7) (constLstm 7)
      halfWeights (mkCleanHist 170) (constRunRows 170 7) (of_decide_eq_true rfl)⟩

set_option maxRecDepth 100000 in
/-- Counterexample to claim C3 as stated: the reported billing period is
the constant `2026-01-01 ~ 2026-03-01`, which is not the claimed cycle
`2025-12-01 .. 2026-01-31` (nor any reference-date-dependent value), and a
run returns 24 hourly steps, not the hundreds of hours to the claimed
cycle end (407 hours from 2026-01-15 to 2026-01-31 23:00). -/
theorem claim_C3_counterexample :
    (get_billing_status 100 0).period = "2026-01-01 ~ 2026-03-01" ∧
      (get_billing_status 100 0).period ≠ "2025-12-01 ~ 2026-01-31" ∧
      load_resources_and_predict zeroStd (constLgbm ["lag_24h"] 3) (constLstm 3)
        halfWeights (mkCleanHist 171) = some (constRunRows 171 3) ∧
      (constRunRows 171 3).length = 24 ∧ (24 : ℕ) ≠ 407 :=
  ⟨rfl, of_decide_eq_true rfl, of_decide_eq_true rfl, of_decide_eq_true rfl,
    of_decide_eq_true rfl⟩

-- ==========================================================================
-- Claim C4
-- ==========================================================================

/-- Claim C4 (amended): the weather inputs of every one of the 24 future
feature rows are pure persistence — lines 400-401 copy the last observed
temperature and humidity into every future row — not a climatological
`(month, day, hour)` mean and with no series-wide-mean fallback. -/
theorem claim_C4_amended (stdFn : List ℚ → ℚ) (ready : List HistoryRow)
    (lastTemp lastHum : ℚ) (lastTime : ℤ) (k : ℕ) (hk : k < 24) :
    ((add_lgbm_features stdFn (fullPowerOf ready) (fullTempsOf ready lastTemp)
        (fullHumsOf ready lastHum) (fullTimesOf ready lastTime)
        (ready.length + k)).temperature = lastTemp ∧
      (add_lgbm_features stdFn (fullPowerOf ready) (fullTempsOf ready lastTemp)
        (fullHumsOf ready lastHum) (fullTimesOf ready lastTime)
        (ready.length + k)).humidity = lastHum) ∧
    ((add_lstm_features stdFn (fullPowerOf ready) (fullTempsOf ready lastTemp)
        (fullHumsOf ready lastHum) (fullTimesOf ready lastTime)
        (ready.length + k)).temperature = lastTemp ∧
      (add_lstm_features stdFn (fullPowerOf ready) (fullTempsOf ready lastTemp)
        (fullHumsOf ready lastHum) (fullTimesOf ready lastTime)
        (ready.length + k)).humidity = lastHum) := by
  have htemp : (fullTempsOf ready lastTemp).getD (ready.length + k) 0 = lastTemp := by
    unfold fullTempsOf
    have hlen : ready.length = (ready.map fun r => r.temperature).length :=
      (List.length_map _ _).symm
    rw [hlen]
    exact getD_append_replicate _ 24 _ _ k hk
  have hhum : (fullHumsOf ready lastHum).getD (ready.length + k) 0 = lastHum := by
    unfold fullHumsOf
    have hlen : ready.length = (ready.map fun r => r.humidity).length :=
      (List.length_map _ _).symm
    rw [hlen]
    exact getD_append_replicate _ 24 _ _ k hk
  exact ⟨⟨htemp, hhum⟩, ⟨htemp, hhum⟩⟩

/-- Witness for claim C4 (amended) at a concrete 5-hour history and the
first future step. -/
theorem claim_C4_witness :
    (0 : ℕ) < 24 ∧
      ((add_lgbm_features zeroStd (fullPowerOf (mkCleanHist 5))
          (fullTempsOf (mkCleanHist 5) 20) (fullHumsOf (mkCleanHist 5) 60)
          (fullTimesOf (mkCleanHist 5) 5)
          ((mkCleanHist 5).length + 0)).temperature = 20 ∧
        (add_lgbm_features zeroStd (fullPowerOf (mkCleanHist 5))
          (fullTempsOf (mkCleanHist 5) 20) (fullHumsOf (mkCleanHist 5) 60)
          (fullTimesOf (mkCleanHist 5) 5)
          ((mkCleanHist 5).length + 0)).humidity = 60) ∧
      ((add_lstm_features zeroStd (fullPowerOf (mkCleanHist 5))
          (fullTempsOf (mkCleanHist 5) 20) (fullHumsOf (mkCleanHist 5) 60)
          (fullTimesOf (mkCleanHist 5) 5)
          ((mkCleanHist 5).length + 0)).temperature = 20 ∧
        (add_lstm_features zeroStd (fullPowerOf (mkCleanHist 5))
          (fullTempsOf (mkCleanHist 5) 20) (fullHumsOf (mkCleanHist 5) 60)
          (fullTimesOf (mkCleanHist 5) 5)
          ((mkCleanHist 5).length + 0)).humidity = 60) :=
  ⟨by decide, (claim_C4_amended zeroStd (mkCleanHist 5) 20 60 5 0 (by decide)).1,
    (claim_C4_amended zeroStd (mkCleanHist 5) 20 60 5 0 (by decide)).2⟩

set_option maxRecDepth 100000 in
/-- Counterexample to claim C4 as stated: on a 169-hour history whose last
row carries temperature 30 while every earlier row carries 20, the future
feature rows carry 30 (persistence of the last observation), whereas the
simulator the specification describes would return the series-wide mean
3390/169 (the target hour's calendar slot has no observation), and the
two differ. -/
theorem claim_C4_counterexample :
    (trimReady c4Hist).getLast? =
        some { time := 169, power := some 5, temperature := 30, humidity := 60 } ∧
      (add_lgbm_features zeroStd (fullPowerOf (trimReady c4Hist))
        (fullTempsOf (trimReady c4Hist) 30) (fullHumsOf (trimReady c4Hist) 60)
        (fullTimesOf (trimReady c4Hist) 169)
        ((trimReady c4Hist).length + 0)).temperature = 30 ∧
      spec_exogenous_temperature c4Hist 170 = some (3390 / 169) ∧
      (30 : ℚ) ≠ 3390 / 169 :=
  ⟨of_decide_eq_true rfl, of_decide_eq_true rfl, of_decide_eq_true rfl,
    of_decide_eq_true rfl⟩

-- ==========================================================================
-- Claim C5
-- ==========================================================================

/-- Claim C5 (amended): the call gates on the ROW COUNT of the trimmed
history, not on the count of valid rows, and it fails silently: with fewer
than 168 rows the sequence-window reshape raises, the blanket handler of
lines 445-447 swallows the exception and the call returns no forecast (no
distinct insufficient-history error and no zero padding), while with at
least 168 rows a forecast is returned whenever the manifest columns exist,
even if almost every row's load is missing. -/
theorem claim_C5_amended :
    (∀ (stdFn : List ℚ → ℚ) (lgbm : LgbmModel) (lstm : LstmModel)
      (w : EnsembleWeights) (combined : List HistoryRow),
      (trimReady combined).length < 168 →
      load_resources_and_predict stdFn lgbm lstm w combined = none) ∧
    (∀ (stdFn : List ℚ → ℚ) (lgbm : LgbmModel) (lstm : LstmModel)
      (w : EnsembleWeights) (combined : List HistoryRow),
      168 ≤ (trimReady combined).length →
      (∀ c ∈ lgbm.feature_name, c ∈ lgbm_produced_columns) →
      (load_resources_and_predict stdFn lgbm lstm w combined).isSome = true) := by
  constructor
  · intro stdFn lgbm lstm w combined hlen
    unfold load_resources_and_predict predictCore
    generalize hR : trimReady combined = R at hlen ⊢
    cases hgl : R.getLast? with
    | none => rfl
    | some lastRow =>
      show (predictWith stdFn lgbm lstm w R lastRow).toOption = none
      unfold predictWith
      by_cases hcols : ∀ c ∈ lgbm.feature_name, c ∈ lgbm_produced_columns
      · rw [dif_pos hcols]
        have hne : (seqWindow stdFn (fullPowerOf R) (fullTempsOf R lastRow.temperature)
            (fullHumsOf R lastRow.humidity) (fullTimesOf R lastRow.time)
            R.length).length ≠ 168 := by
          rw [seqWindow_length]
          omega
        rw [dif_neg hne]
        rfl
      · rw [dif_neg hcols]
        rfl
  · intro stdFn lgbm lstm w combined hlen hcols
    unfold load_resources_and_predict predictCore
    generalize hR : trimReady combined = R at hlen ⊢
    cases hgl : R.getLast? with
    | none =>
      rw [List.getLast?_eq_none_iff] at hgl
      rw [hgl] at hlen
      simp at hlen
    | some lastRow =>
      show (predictWith stdFn lgbm lstm w R lastRow).toOption.isSome = true
      unfold predictWith
      rw [dif_pos hcols]
      have heq : (seqWindow stdFn (fullPowerOf R) (fullTempsOf R lastRow.temperature)
          (fullHumsOf R lastRow.humidity) (fullTimesOf R lastRow.time)
          R.length).length = 168 := by
        rw [seqWindow_length]
        omega
      rw [dif_pos heq]
      rfl

set_option maxRecDepth 100000 in
/-- Witness for claim C5 (amended): a 10-row history produces no forecast,
and a 168-row history produces one. -/
theorem claim_C5_witness :
    ((trimReady (mkCleanHist 10)).length < 168 ∧
      load_resources_and_predict zeroStd (constLgbm ["lag_24h"] 7) (constLstm 7)
        halfWeights (mkCleanHist 10) = none) ∧
    (168 ≤ (trimReady (mkCleanHist 168)).length ∧
      (∀ c ∈ (constLgbm ["lag_24h"] 7).feature_name, c ∈ lgbm_produced_columns) ∧
      (load_resources_and_predict zeroStd (constLgbm ["lag_24h"] 7) (constLstm 7)
        halfWeights (mkCleanHist 168)).isSome = true) :=
  ⟨⟨of_decide_eq_true rfl,
    claim_C5_amended.1 zeroStd (constLgbm ["lag_24h"] 7) (constLstm 7)
      halfWeights (mkCleanHist 10) (of_decide_eq_true rfl)⟩,
    ⟨of_decide_eq_true rfl, of_decide_eq_true rfl,
      claim_C5_amended.2 zeroStd (constLgbm ["lag_24h"] 7) (constLstm 7)
        halfWeights (mkCleanHist 168) (of_decide_eq_true rfl)
        (of_decide_eq_true rfl)⟩⟩

set_option maxRecDepth 100000 in
/-- Counterexample to claim C5 as stated: a 168-row history holding just
ONE valid load reading — far fewer than the 168 valid hours the claim
requires — still returns a forecast result: the code never counts valid
rows, so no insufficient-history error is raised. -/
theorem claim_C5_counterexample :
    validRowCount c5Hist = 1 ∧
      (load_resources_and_predict zeroStd (constLgbm ["lag_24h"] 7) (constLstm 7)
        halfWeights c5Hist).isSome = true :=
  ⟨of_decide_eq_true rfl, of_decide_eq_true rfl⟩

-- ==========================================================================
-- Claim C6
-- ==========================================================================

/-- Claim C6 (amended): when the LightGBM manifest expects a column the
feature engineer did not produce, the column selection of line 412 raises
a KeyError, the blanket handler swallows it, and the whole call returns no
forecast — the missing column is never zero-filled and no prediction is
returned. -/
theorem claim_C6_amended (stdFn : List ℚ → ℚ) (lgbm : LgbmModel)
    (lstm : LstmModel) (w : EnsembleWeights) (combined : List HistoryRow)
    (hbad : ∃ c ∈ lgbm.feature_name, c ∉ lgbm_produced_columns) :
    load_resources_and_predict stdFn lgbm lstm w combined = none := by
  unfold load_resources_and_predict predictCore
  generalize trimReady combined = R
  cases hgl : R.getLast? with
  | none => rfl
  | some lastRow =>
    show (predictWith stdFn lgbm lstm w R lastRow).toOption = none
    unfold predictWith
    have hcols : ¬ ∀ c ∈ lgbm.feature_name, c ∈ lgbm_produced_columns := by
      rcases hbad with ⟨c, hc1, hc2⟩
      intro hall
      exact hc2 (hall c hc1)
    rw [dif_neg hcols]
    rfl

/-- Witness for claim C6 (amended) at a concrete manifest naming a column
the engineer never produces. -/
theorem claim_C6_witness :
    (∃ c ∈ (constLgbm ["lag_24h", "bogus_feature"] 7).feature_name,
      c ∉ lgbm_produced_columns) ∧
    load_resources_and_predict zeroStd (constLgbm ["lag_24h", "bogus_feature"] 7)
      (constLstm 7) halfWeights (mkCleanHist 3) = none :=
  ⟨⟨"bogus_feature", by decide, by decide⟩,
    claim_C6_amended zeroStd (constLgbm ["lag_24h", "bogus_feature"] 7)
      (constLstm 7) halfWeights (mkCleanHist 3)
      ⟨"bogus_feature", by decide, by decide⟩⟩

set_option maxRecDepth 100000 in
/-- Counterexample to claim C6 as stated: on an otherwise-valid 172-hour
history, a manifest naming the unproduced column `bogus_feature` makes the
forecast call fail (it returns no prediction at all) instead of zero-filling
the column and returning a prediction. -/
theorem claim_C6_counterexample :
    ("bogus_feature" ∈ (constLgbm ["lag_24h", "bogus_feature"] 7).feature_name) ∧
      "bogus_feature" ∉ lgbm_produced_columns ∧
      load_resources_and_predict zeroStd (constLgbm ["lag_24h", "bogus_feature"] 7)
        (constLstm 7) halfWeights (mkCleanHist 172) = none :=
  ⟨by decide, by decide, of_decide_eq_true rfl⟩

-- ==========================================================================
-- Claim C7
-- ==========================================================================

/-- Claim C7 (amended): every rolling-statistic feature computed for
position `t` depends only on load values at positions strictly before `t` —
the LGBM `ma_*d`/`std_*d` windows end at `t - 1` and the LSTM `*_safe` /
`*_168h` windows end at `t - 24` — so two series that agree strictly below
`t` yield identical rolling features at `t` regardless of the values stored
at `t` or later. -/
theorem claim_C7_amended (stdFn : List ℚ → ℚ) (p1 p2 : List (Option ℚ))
    (temps hums : List ℚ) (times : List ℤ) (t : ℕ)
    (hagree : ∀ i : ℤ, i < (t : ℤ) → powAtZ p1 i = powAtZ p2 i) :
    ((add_lgbm_features stdFn p1 temps hums times t).ma_7d =
        (add_lgbm_features stdFn p2 temps hums times t).ma_7d ∧
      (add_lgbm_features stdFn p1 temps hums times t).std_7d =
        (add_lgbm_features stdFn p2 temps hums times t).std_7d ∧
      (add_lgbm_features stdFn p1 temps hums times t).ma_14d =
        (add_lgbm_features stdFn p2 temps hums times t).ma_14d ∧
      (add_lgbm_features stdFn p1 temps hums times t).std_14d =
        (add_lgbm_features stdFn p2 temps hums times t).std_14d ∧
      (add_lgbm_features stdFn p1 temps hums times t).ma_30d =
        (add_lgbm_features stdFn p2 temps hums times t).ma_30d ∧
      (add_lgbm_features stdFn p1 temps hums times t).std_30d =
        (add_lgbm_features stdFn p2 temps hums times t).std_30d) ∧
    ((add_lstm_features stdFn p1 temps hums times t).rolling_mean_24h_safe =
        (add_lstm_features stdFn p2 temps hums times t).rolling_mean_24h_safe ∧
      (add_lstm_features stdFn p1 temps hums times t).rolling_std_24h_safe =
        (add_lstm_features stdFn p2 temps hums times t).rolling_std_24h_safe ∧
      (add_lstm_features stdFn p1 temps hums times t).rolling_mean_168h =
        (add_lstm_features stdFn p2 temps hums times t).rolling_mean_168h ∧
      (add_lstm_features stdFn p1 temps hums times t).rolling_std_168h =
        (add_lstm_features stdFn p2 temps hums times t).rolling_std_168h) := by
  have h7 := winVals_congr 1 168 (by omega) p1 p2 t hagree
  have h14 := winVals_congr 1 336 (by omega) p1 p2 t hagree
  have h30 := winVals_congr 1 720 (by omega) p1 p2 t hagree
  have h24s := winVals_congr 24 24 (by omega) p1 p2 t hagree
  have h168s := winVals_congr 24 168 (by omega) p1 p2 t hagree
  simp only [add_lgbm_features, add_lstm_features]
  exact ⟨⟨congrArg meanOpt h7, congrArg (stdOpt stdFn) h7,
      congrArg meanOpt h14, congrArg (stdOpt stdFn) h14,
      congrArg meanOpt h30, congrArg (stdOpt stdFn) h30⟩,
    ⟨congrArg meanOpt h24s, congrArg (stdOpt stdFn) h24s,
      congrArg meanOpt h168s, congrArg (stdOpt stdFn) h168s⟩⟩

theorem c7_agree_below_one :
    ∀ i : ℤ, i < ((1 : ℕ) : ℤ) →
      powAtZ [some 1, some 9] i = powAtZ [some (1 : ℚ), some 4] i := by
  intro i hi
  by_cases h0 : i = 0
  · rw [h0]
    rfl
  · have hneg : i < 0 := by
      push_cast at hi
      omega
    rw [powAtZ_neg _ _ hneg, powAtZ_neg _ _ hneg]

/-- Witness for claim C7 (amended): two two-element series agreeing below
position 1 but differing at position 1 have equal rolling features at 1. -/
theorem claim_C7_witness :
    (∀ i : ℤ, i < ((1 : ℕ) : ℤ) →
      powAtZ [some 1, some 9] i = powAtZ [some (1 : ℚ), some 4] i) ∧
    (add_lgbm_features zeroStd [some 1, some 9] [] [] [] 1).ma_7d =
      (add_lgbm_features zeroStd [some 1, some 4] [] [] [] 1).ma_7d ∧
    (add_lstm_features zeroStd [some 1, some 9] [] [] [] 1).rolling_mean_168h =
      (add_lstm_features zeroStd [some 1, some 4] [] [] [] 1).rolling_mean_168h :=
  ⟨c7_agree_below_one,
    (claim_C7_amended zeroStd [some 1, some 9] [some 1, some 4] [] [] [] 1
      c7_agree_below_one).1.1,
    (claim_C7_amended zeroStd [some 1, some 9] [some 1, some 4] [] [] [] 1
      c7_agree_below_one).2.2.2.1⟩

set_option maxRecDepth 100000 in
/-- Counterexample to claim C7 as stated: mutating the value at position
`t - 1 = 47` changes the LGBM `ma_7d` at `t = 48` (its window does end at
`t - 1`) but leaves the LSTM `rolling_mean_24h_safe` at 48 unchanged — that
window ends at `t - 24`, not at `t - 1` as the claim asserts for all
rolling features. -/
theorem claim_C7_counterexample :
    (add_lstm_features zeroStd c7Base c7Zeros c7Zeros c7Times 48).rolling_mean_24h_safe =
        (add_lstm_features zeroStd c7Mutated c7Zeros c7Zeros c7Times 48).rolling_mean_24h_safe ∧
      powAtZ c7Base 47 ≠ powAtZ c7Mutated 47 ∧
      (add_lgbm_features zeroStd c7Base c7Zeros c7Zeros c7Times 48).ma_7d ≠
        (add_lgbm_features zeroStd c7Mutated c7Zeros c7Zeros c7Times 48).ma_7d :=
  ⟨of_decide_eq_true rfl, of_decide_eq_true rfl, of_decide_eq_true rfl⟩

-- ==========================================================================
-- Claim C8
-- ==========================================================================

/-- Claim C8 (amended): a successful call returns exactly 24 rows at
consecutive hourly timestamps starting one hour after the LAST ROW of the
trimmed history; the trim removes trailing NaN rows but treats a trailing
zero reading as its own `last_valid_index`, so after a zero reading the
forecast starts one hour after the zero row, not after the last valid
(non-zero) record. -/
theorem claim_C8_amended (stdFn : List ℚ → ℚ) (lgbm : LgbmModel)
    (lstm : LstmModel) (w : EnsembleWeights) (combined : List HistoryRow)
    (rows : List ForecastRow) (lastRow : HistoryRow)
    (hlast : (trimReady combined).getLast? = some lastRow)
    (hok : load_resources_and_predict stdFn lgbm lstm w combined = some rows) :
    rows.map (fun r => r.time) =
      (List.range 24).map (fun k => lastRow.time + (k : ℤ) + 1) := by
  have hcore := except_toOption_eq_some hok
  have hstruct := predictCore_ok_struct _ _ _ _ _ _ _ hlast hcore
  rw [hstruct, List.map_map]
  rfl

set_option maxRecDepth 100000 in
/-- Witness for claim C8 (amended) on a clean 173-hour history. -/
theorem claim_C8_witness :
    (trimReady (mkCleanHist 173)).getLast? =
        some { time := 173, power := some 5, temperature := 20, humidity := 60 } ∧
      load_resources_and_predict zeroStd (constLgbm ["lag_24h"] 7) (constLstm 7)
        halfWeights (mkCleanHist 173) = some (constRunRows 173 7) ∧
      (constRunRows 173 7).map (fun r => r.time) =
        (List.range 24).map (fun k => (173 : ℤ) + (k : ℤ) + 1) :=
  ⟨of_decide_eq_true rfl, of_decide_eq_true rfl,
    claim_C8_amended zeroStd (constLgbm ["lag_24h"] 7) (constLstm 7)
      halfWeights (mkCleanHist 173) (constRunRows 173 7)
      { time := 173, power := some 5, temperature := 20, humidity := 60 }
      (of_decide_eq_true rfl) (of_decide_eq_true rfl)⟩

set_option maxRecDepth 100000 in
/-- Counterexample to claim C8 as stated: on a 169-hour history whose final
row holds the invalid reading 0 at hour 169 (the last valid record being at
hour 168), the forecast starts at hour 170 — one hour after the zero row —
instead of at hour 169, one hour after the last valid observed record. -/
theorem claim_C8_counterexample :
    load_resources_and_predict zeroStd (constLgbm ["lag_24h"] 7) (constLstm 7)
        halfWeights c8Hist = some (constRunRows 169 7) ∧
      (constRunRows 169 7).head?.map (fun r => r.time) = some 170 ∧
      ((c8Hist.filter fun r =>
          decide (r.power ≠ none ∧ r.power ≠ some 0)).getLast?.map
        fun r => r.time) = some 168 ∧
      (170 : ℤ) ≠ 168 + 1 :=
  ⟨of_decide_eq_true rfl, of_decide_eq_true rfl, of_decide_eq_true rfl,
    of_decide_eq_true rfl⟩
